import Mathlib

/-!
Verification development for the vox repository core:
the hybrid extraction pipeline (backend/app/ml/extraction.py) and the
deterministic risk engine (backend/app/risk/risk_engine.py).

Python regular expressions used by the extraction pipeline are embedded via a
small backtracking matcher (`mrun`) whose priorities mirror CPython's `re`
module: alternation prefers the left branch, greedy repetition prefers longer
matches, lazy repetition prefers shorter matches, literals compare
case-insensitively (all source patterns are compiled with `re.IGNORECASE`),
and `.` does not match a newline.  External capabilities (the dateparser
library, the difflib similarity ratio, the sentiment model, the Ollama
oracle) are passed in as explicit function arguments, matching the spec's
capability-object model.
-/

namespace Vox

/-- Python whitespace class `\s` restricted to ASCII, as used by the source patterns. -/
def isPySpace (c : Char) : Bool :=
  c == ' ' || c == '\t' || c == '\n' || c == '\r' || c == '\x0b' || c == '\x0c'

/-- Character classes occurring in the source regular expressions. -/
inductive CClass where
  | ws
  | dot
  | notCPN
deriving DecidableEq

/-- Interpretation of the character classes: `\s`, `.` (no newline), `[^,.\n]`. -/
def cclassMatch : CClass → Char → Bool
  | .ws, c => isPySpace c
  | .dot, c => c != '\n'
  | .notCPN, c => c != ',' && c != '.' && c != '\n'

/-- Abstract syntax of the regular-expression fragment used by the source:
literals, classes, sequencing, alternation, greedy option, lazy star,
greedy star, end anchor, and a single capture group. -/
inductive RE where
  | eps
  | lit (c : Char)
  | cls (k : CClass)
  | seq (a b : RE)
  | alt (a b : RE)
  | opt (a : RE)
  | starL (a : RE)
  | starG (a : RE)
  | eos
  | grp (a : RE)
deriving DecidableEq

/-- Backtracking matcher in continuation-passing style.  The continuation
receives the remaining input and the group-1 capture recorded so far; the
overall answer is the remaining input after the whole match together with the
capture.  Fuel bounds the recursion depth; callers supply enough fuel for the
inputs at hand. -/
def mrun : Nat → RE → List Char → Option (List Char) →
    (List Char → Option (List Char) → Option (List Char × Option (List Char))) →
    Option (List Char × Option (List Char))
  | 0, _, _, _, _ => none
  | _ + 1, .eps, s, cap, k => k s cap
  | _ + 1, .lit c, s, cap, k =>
    match s with
    | [] => none
    | d :: rest => if d.toLower == c.toLower then k rest cap else none
  | _ + 1, .cls cl, s, cap, k =>
    match s with
    | [] => none
    | d :: rest => if cclassMatch cl d then k rest cap else none
  | fuel + 1, .seq a b, s, cap, k =>
    mrun fuel a s cap (fun s2 cap2 => mrun fuel b s2 cap2 k)
  | fuel + 1, .alt a b, s, cap, k =>
    match mrun fuel a s cap k with
    | some r => some r
    | none => mrun fuel b s cap k
  | fuel + 1, .opt a, s, cap, k =>
    match mrun fuel a s cap k with
    | some r => some r
    | none => k s cap
  | fuel + 1, .starL a, s, cap, k =>
    match k s cap with
    | some r => some r
    | none => mrun fuel a s cap (fun s2 cap2 => mrun fuel (.starL a) s2 cap2 k)
  | fuel + 1, .starG a, s, cap, k =>
    match mrun fuel a s cap (fun s2 cap2 => mrun fuel (.starG a) s2 cap2 k) with
    | some r => some r
    | none => k s cap
  | _ + 1, .eos, s, cap, k =>
    if s.isEmpty || s == ['\n'] then k s cap else none
  | fuel + 1, .grp a, s, cap, k =>
    mrun fuel a s cap (fun s2 _ => k s2 (some (s.take (s.length - s2.length))))

/-- Attempt a match anchored at the start of `s`; on success return the
number of consumed characters plus the group-1 capture. -/
def matchAt (re : RE) (s : List Char) : Option (Nat × Option (List Char)) :=
  match mrun (s.length * 80 + 200) re s none (fun rest cap => some (rest, cap)) with
  | none => none
  | some (rest, cap) => some (s.length - rest.length, cap)

/-- The candidate text obtained from one `re.finditer` match in the source:
`match.group(1) if match.groups() else match.group(0)`. -/
def matchText (s : List Char) (len : Nat) (cap : Option (List Char)) : String :=
  match cap with
  | some c => String.mk c
  | none => String.mk (s.take len)

/-- All matches of `re.finditer`, scanned left to right and non-overlapping,
returning each match's candidate text. -/
def finditerTexts (re : RE) : Nat → List Char → List String
  | 0, _ => []
  | fuel + 1, s =>
    match matchAt re s with
    | some (len, cap) =>
      if len == 0 then
        match s with
        | [] => [matchText s len cap]
        | _ :: t => matchText s len cap :: finditerTexts re fuel t
      else matchText s len cap :: finditerTexts re fuel (s.drop len)
    | none =>
      match s with
      | [] => []
      | _ :: t => finditerTexts re fuel t

/-- `re.finditer(pattern, s)` candidate texts for a string input. -/
def finditerAll (re : RE) (s : String) : List String :=
  finditerTexts re (s.length + 1) s.toList

/-- First group-1 capture of `re.search(pattern, s)`, scanning start
positions left to right. -/
def searchGroup (re : RE) : Nat → List Char → Option String
  | 0, _ => none
  | fuel + 1, s =>
    match matchAt re s with
    | some (_, some cap) => some (String.mk cap)
    | some (_, none) => none
    | none =>
      match s with
      | [] => none
      | _ :: t => searchGroup re fuel t

/-- `re.search` group-1 capture for a string input. -/
def searchGroupAll (re : RE) (s : String) : Option String :=
  searchGroup re (s.length + 1) s.toList

/-- Regular expression matching a literal string (case-insensitively). -/
def rstr (s : String) : RE :=
  s.toList.foldr (fun c r => RE.seq (RE.lit c) r) RE.eps

/-- Greedy `+` over a character class. -/
def rplus (k : CClass) : RE := RE.seq (RE.cls k) (RE.starG (RE.cls k))

/-- Source pattern `(?:we )?decided\s+(?:to|that)\s+(.*?)(?:\.|,|$)`. -/
def decision_pattern1 : RE :=
  .seq (.opt (rstr "we "))
    (.seq (rstr "decided")
      (.seq (rplus .ws)
        (.seq (.alt (rstr "to") (rstr "that"))
          (.seq (rplus .ws)
            (.seq (.grp (.starL (.cls .dot)))
              (.alt (.lit '.') (.alt (.lit ',') .eos)))))))

/-- Source pattern `(?:agreed\s+(?:to|that|on)?)\s+(.*?)(?:\.|,|$)`. -/
def decision_pattern2 : RE :=
  .seq (rstr "agreed")
    (.seq (rplus .ws)
      (.seq (.opt (.alt (rstr "to") (.alt (rstr "that") (rstr "on"))))
        (.seq (rplus .ws)
          (.seq (.grp (.starL (.cls .dot)))
            (.alt (.lit '.') (.alt (.lit ',') .eos))))))

/-- Source pattern `(?:we will)\s+(.*?)(?:going forward|from now on|$)`. -/
def decision_pattern3 : RE :=
  .seq (rstr "we will")
    (.seq (rplus .ws)
      (.seq (.grp (.starL (.cls .dot)))
        (.alt (rstr "going forward") (.alt (rstr "from now on") .eos))))

/-- Source pattern `(?:moving forward|henceforth),?\s+(.*?)(?:\.|$)`. -/
def decision_pattern4 : RE :=
  .seq (.alt (rstr "moving forward") (rstr "henceforth"))
    (.seq (.opt (.lit ','))
      (.seq (rplus .ws)
        (.seq (.grp (.starL (.cls .dot)))
          (.alt (.lit '.') .eos))))

/-- The ordered table `DECISION_PATTERNS` of the source. -/
def DECISION_PATTERNS : List RE :=
  [decision_pattern1, decision_pattern2, decision_pattern3, decision_pattern4]

/-- Python `str.strip()` on ASCII whitespace. -/
def pyStrip (s : String) : String :=
  String.mk (((s.toList.dropWhile isPySpace).reverse.dropWhile isPySpace).reverse)

/-- Python `str.lower()` (ASCII). -/
def strLower (s : String) : String := String.mk (s.toList.map Char.toLower)

/-- Worker for `re.split(r"(?<=[.!?])\s+", text)`: a sentence ends at a
`.`, `!` or `?` that is immediately followed by whitespace; the whitespace
run is the delimiter and is dropped. -/
def splitGo : Nat → List Char → List Char → List String
  | 0, s, acc => [String.mk (acc.reverse ++ s)]
  | _ + 1, [], acc => [String.mk acc.reverse]
  | fuel + 1, c :: rest, acc =>
    if (c == '.' || c == '!' || c == '?')
        && (match rest with | r :: _ => isPySpace r | [] => false) then
      String.mk (acc.reverse ++ [c]) :: splitGo fuel (rest.dropWhile isPySpace) []
    else splitGo fuel rest (c :: acc)

/-- Sentence segmentation of the source: `re.split(r"(?<=[.!?])\s+", text)`. -/
def split_sentences (text : String) : List String :=
  splitGo (text.length + 1) text.toList []

/-- Kind tag of an extracted candidate. -/
inductive ItemType where
  | task
  | decision
deriving DecidableEq

/-- An extraction candidate as built by the source pipeline.  `text` is the
`task`/`decision` field; `pattern_matched` records the index of the matching
pattern in its table; `llama_validation` is the oracle's `valid` field when
the oracle answered. -/
structure ExtractItem where
  type : ItemType
  text : String
  assignee : Option String
  deadline : Option String
  source_sentence : String
  pattern_matched : Nat
  confidence_score : ℚ
  llama_validation : Option Bool
deriving DecidableEq

/-- Case-insensitive exact-text deduplication, first occurrence wins. -/
def dedupGo : List ExtractItem → List String → List ExtractItem
  | [], _ => []
  | d :: rest, seen =>
    if seen.contains (strLower d.text) then dedupGo rest seen
    else d :: dedupGo rest (strLower d.text :: seen)

/-- The source's `_detect_decisions_rules`: split into sentences, run each
decision pattern over each sentence with `finditer`, build a candidate per
match, then deduplicate case-insensitively. -/
def detect_decisions_rules (text : String) : List ExtractItem :=
  let sentences := split_sentences text
  let decisions := sentences.flatMap (fun sent =>
    (List.range DECISION_PATTERNS.length).flatMap (fun pi =>
      match DECISION_PATTERNS.get? pi with
      | some re => (finditerAll re sent).map (fun t =>
          { type := .decision, text := pyStrip t, assignee := none, deadline := none,
            source_sentence := pyStrip sent, pattern_matched := pi,
            confidence_score := 0, llama_validation := none })
      | none => []))
  dedupGo decisions []

/-- The ordered keyword table `DEADLINE_KEYWORDS` of the source. -/
def DEADLINE_KEYWORDS : List String :=
  ["by", "due", "deadline", "until", "before", "on", "next"]

/-- The per-keyword search pattern `rf"{keyword}\s+([^,.\n]+)"`. -/
def deadline_pattern (kw : String) : RE :=
  .seq (rstr kw) (.seq (rplus .ws) (.grp (rplus .notCPN)))

/-- Keyword loop of `_extract_deadline`: for each keyword in table order,
search the sentence; when the pattern matches, parse the stripped capture
with the date-parsing capability; return the first successful parse,
otherwise continue with the remaining keywords. -/
def extract_deadline_go (parse_date : String → Option String) (text : String) :
    List String → Option String
  | [] => none
  | kw :: rest =>
    match searchGroupAll (deadline_pattern kw) text with
    | some date_str =>
      match parse_date (pyStrip date_str) with
      | some parsed => some parsed
      | none => extract_deadline_go parse_date text rest
    | none => extract_deadline_go parse_date text rest

/-- The source's `_extract_deadline`, with the dateparser capability passed
explicitly. -/
def extract_deadline (parse_date : String → Option String) (text : String) : Option String :=
  extract_deadline_go parse_date text DEADLINE_KEYWORDS

/-- Python truthiness of an optional string: `None` and the empty string are
falsy. -/
def optStrTruthy : Option String → Bool
  | none => false
  | some s => !(s == "")

/-- The source's `_calculate_confidence`: base 0.6; tasks gain 0.15 for an
assignee, 0.15 for a deadline, 0.1 for text longer than 10 characters;
decisions gain 0.2 for text longer than 15 characters; capped at 1.0. -/
def calculate_confidence (item_type : ItemType) (item : ExtractItem) : ℚ :=
  let base : ℚ := 6/10
  let score : ℚ :=
    match item_type with
    | .task =>
      let s1 := if optStrTruthy item.assignee then base + 15/100 else base
      let s2 := if optStrTruthy item.deadline then s1 + 15/100 else s1
      if item.text.length > 10 then s2 + 1/10 else s2
    | .decision => if item.text.length > 15 then base + 2/10 else base
  min score 1

/-- The source's `_set_fallback_confidence`. -/
def set_fallback_confidence (item_type : ItemType) (item : ExtractItem) : ExtractItem :=
  { item with confidence_score := calculate_confidence item_type item }

/-- Outcome of one oracle subprocess call in `_validate_with_llama`:
the call raises (timeout or transport failure), exits non-zero, produces
output that is not parseable JSON, or produces a JSON object with optional
`confidence` and `valid` fields. -/
inductive OracleResult where
  | raises
  | failCode
  | notJson
  | json (confidence : Option ℚ) (valid : Option Bool)
deriving DecidableEq

/-- Per-item body of the validation loop for a call that did not raise:
non-zero exit or unparseable JSON fall back to the heuristic confidence; a
parsed JSON response is trusted, `confidence` defaulting to 0.7 and `valid`
to `true`. -/
def process_item (r : OracleResult) (item_type : ItemType) (item : ExtractItem) : ExtractItem :=
  match r with
  | .raises => item
  | .failCode => set_fallback_confidence item_type item
  | .notJson => set_fallback_confidence item_type item
  | .json confidence valid =>
    { item with confidence_score := confidence.getD (7/10),
                llama_validation := some (valid.getD true) }

/-- The validation loop of `_validate_with_llama`.  Processing runs left to
right; when the call for some item raises, the loop stops and the whole list
as mutated so far (processed prefix, raising item, untouched suffix) is
surfaced through `.error`. -/
def validate_go (oracle : Nat → OracleResult) (item_type : ItemType) :
    Nat → List ExtractItem → Except (List ExtractItem) (List ExtractItem)
  | _, [] => .ok []
  | i, item :: rest =>
    match oracle i with
    | .raises => .error (item :: rest)
    | r =>
      let item2 := process_item r item_type item
      match validate_go oracle item_type (i + 1) rest with
      | .ok rest2 => .ok (item2 :: rest2)
      | .error rest2 => .error (item2 :: rest2)

/-- The source's `_validate_with_llama`: the whole loop runs inside one
`try`; if any call raises, the `except` branch re-assigns every item's
confidence to the fallback heuristic. -/
def validate_with_llama (oracle : Nat → OracleResult) (item_type : ItemType)
    (items : List ExtractItem) : List ExtractItem :=
  match validate_go oracle item_type 0 items with
  | .ok out => out
  | .error out => out.map (set_fallback_confidence item_type)

/-- Per-item oracle resolution map (item `i` gets the outcome of call `i`),
used to state what the loop computes when no call raises. -/
def oracle_map (oracle : Nat → OracleResult) (item_type : ItemType) :
    Nat → List ExtractItem → List ExtractItem
  | _, [] => []
  | i, item :: rest =>
    process_item (oracle i) item_type item :: oracle_map oracle item_type (i + 1) rest

/-- Sentiment label returned by the classification capability. -/
inductive SentLabel where
  | POSITIVE
  | NEGATIVE
deriving DecidableEq

/-- A persisted task row as read by the risk engine's repetition query. -/
structure PastTask where
  task_description : String
  status : String
deriving DecidableEq

/-- Read-only historical store: the repetition query
(`select(Task).where(Task.id != current_task_id).limit(10)`) and the
overdue-count query for an assignee.  `Except.error` models a raised
exception (timeout, connection failure). -/
structure HistStore where
  listTasksExcept : Option String → Except Unit (List PastTask)
  countOverdue : String → Except Unit Nat

/-- The task record consumed by `assess_task_risk`.  The deadline is the
parsed timestamp of the task's ISO deadline string, `none` when the field is
missing or falsy. -/
structure TaskData where
  task_id : Option String
  task_description : String
  assignee : Option String
  deadline : Option Int
deriving DecidableEq

/-- One entry of the `risk_factors` list. -/
structure RiskFactor where
  factor : String
  points : Nat
  explanation : String
deriving DecidableEq

/-- The `total_risk_breakdown` mapping. -/
structure RiskBreakdown where
  assignee_risk : Nat
  deadline_risk : Nat
  sentiment_risk : Nat
  repetition_risk : Nat
  historical_risk : Nat
deriving DecidableEq

/-- The result record of `assess_task_risk`. -/
structure RiskAssessment where
  task_id : Option String
  risk_score : Nat
  risk_level : String
  risk_factors : List RiskFactor
  total_risk_breakdown : RiskBreakdown
  assessment_timestamp : Int
deriving DecidableEq

/-- The source's `_get_risk_level` threshold mapping. -/
def get_risk_level (score : Nat) : String :=
  if score ≤ 30 then "Low"
  else if score ≤ 60 then "Medium"
  else if score ≤ 85 then "High"
  else "Critical"

/-- The source's `_assess_sentiment`: classify the first 512 characters;
negative labels score 20; classifier errors score 0. -/
def assess_sentiment (classify : String → Except Unit SentLabel) (text : String) : Nat :=
  match classify (text.take 512) with
  | .ok .NEGATIVE => 20
  | .ok .POSITIVE => 0
  | .error _ => 0

/-- The source's `_check_repetition`: fetch up to 10 other tasks; award 15
on the first one whose lowercased description is more than 0.7-similar and
whose status is pending or in progress; any raised error yields 0. -/
def check_repetition (sim : String → String → ℚ) (store : HistStore)
    (task_desc : String) (current_task_id : Option String) : Nat :=
  match store.listTasksExcept current_task_id with
  | .error _ => 0
  | .ok past_tasks =>
    if past_tasks.any (fun pt =>
        decide ((7 : ℚ)/10 < sim (strLower task_desc) (strLower pt.task_description))
          && (pt.status == "pending" || pt.status == "in_progress"))
    then 15 else 0

/-- The source's `_check_historical_delays`: count the assignee's overdue
tasks; 3 or more score 10, 1 or 2 score 5; any raised error yields 0. -/
def check_historical_delays (store : HistStore) (assignee : String) : Nat :=
  match store.countOverdue assignee with
  | .error _ => 0
  | .ok overdue_count =>
    if overdue_count ≥ 3 then 10
    else if overdue_count ≥ 1 then 5
    else 0

/-- Factor-1 condition: `not assignee or assignee.lower() == "none"`. -/
def assignee_missing : Option String → Bool
  | none => true
  | some a => a == "" || strLower a == "none"

/-- Factor-1 points. -/
def assignee_points (a : Option String) : Nat :=
  if assignee_missing a then 30 else 0

/-- Factor-1 entry of the factors list. -/
def assignee_factors (a : Option String) : List RiskFactor :=
  if assignee_missing a then
    [⟨"No Assignee", 30, "Task ownership is unclear. No one is explicitly responsible."⟩]
  else []

/-- Factor-2 points: a missing deadline scores 25; a deadline strictly
before the assessment time scores 35; otherwise 0. -/
def deadline_points : Option Int → Int → Nat
  | none, _ => 25
  | some d, now => if d < now then 35 else 0

/-- Factor-2 entry of the factors list. -/
def deadline_factors : Option Int → Int → List RiskFactor
  | none, _ => [⟨"No Deadline", 25, "Urgency and completion target undefined."⟩]
  | some d, now =>
    if d < now then [⟨"Deadline Passed", 35, "Task deadline has already elapsed."⟩]
    else []

/-- Factor-3 points, guarded by `SENTIMENT_AVAILABLE and task_desc`. -/
def sentiment_points (sentiment_available : Bool)
    (classify : String → Except Unit SentLabel) (task_desc : String) : Nat :=
  if sentiment_available && !(task_desc == "") then assess_sentiment classify task_desc
  else 0

/-- Factor-4 points, guarded by `self.db_session`. -/
def repetition_points (sim : String → String → ℚ) (db_session : Option HistStore)
    (task_desc : String) (task_id : Option String) : Nat :=
  match db_session with
  | some store => check_repetition sim store task_desc task_id
  | none => 0

/-- Factor-5 points, guarded by `self.db_session and assignee`. -/
def historical_points (db_session : Option HistStore) (assignee : Option String) : Nat :=
  match db_session with
  | some store =>
    if optStrTruthy assignee then check_historical_delays store (assignee.getD "")
    else 0
  | none => 0

/-- The source's `assess_task_risk`: evaluate the five factors in order,
accumulate points and the per-category breakdown, append an explanation
entry for every factor that fired, clamp the total at 100, and map the
clamped score to a level.  The ambient `datetime.utcnow()` is passed
explicitly as `now`. -/
def assess_task_risk (sentiment_available : Bool)
    (classify : String → Except Unit SentLabel)
    (sim : String → String → ℚ)
    (db_session : Option HistStore)
    (task_data : TaskData) (now : Int) : RiskAssessment :=
  let p1 := assignee_points task_data.assignee
  let f1 := assignee_factors task_data.assignee
  let p2 := deadline_points task_data.deadline now
  let f2 := deadline_factors task_data.deadline now
  let p3 := sentiment_points sentiment_available classify task_data.task_description
  let f3 : List RiskFactor :=
    if 0 < p3 then
      [⟨"Negative Sentiment Detected", p3,
        "Task description contains language suggesting friction or disagreement."⟩]
    else []
  let p4 := repetition_points sim db_session task_data.task_description task_data.task_id
  let f4 : List RiskFactor :=
    if 0 < p4 then
      [⟨"Topic Repeated", p4,
        "Similar tasks have been discussed before but not resolved."⟩]
    else []
  let p5 := historical_points db_session task_data.assignee
  let f5 : List RiskFactor :=
    if 0 < p5 then
      [⟨"Assignee History of Delays", p5,
        task_data.assignee.getD "" ++ " has missed deadlines on "
          ++ toString (p5 / 5) ++ " previous tasks."⟩]
    else []
  let score := p1 + p2 + p3 + p4 + p5
  let final_score := min score 100
  { task_id := task_data.task_id
    risk_score := final_score
    risk_level := get_risk_level final_score
    risk_factors := f1 ++ f2 ++ f3 ++ f4 ++ f5
    total_risk_breakdown := ⟨p1, p2, p3, p4, p5⟩
    assessment_timestamp := now }

/-- Sum of the five values of the `total_risk_breakdown` mapping. -/
def breakdown_sum (b : RiskBreakdown) : Nat :=
  b.assignee_risk + b.deadline_risk + b.sentiment_risk + b.repetition_risk + b.historical_risk

/-- Names of the factors of an assessment, in list order. -/
def factor_names (r : RiskAssessment) : List String :=
  r.risk_factors.map (fun f => f.factor)

/-- Name-points pairs of the factors of an assessment, in list order. -/
def factor_pairs (r : RiskAssessment) : List (String × Nat) :=
  r.risk_factors.map (fun f => (f.factor, f.points))

/-- Whether the deadline of a task counts as passed at a given time. -/
def deadline_passed : Option Int → Int → Bool
  | none, _ => false
  | some d, now => decide (d < now)

/-- Every confidence score in a candidate list lies in the unit interval. -/
def confidences_in_unit (l : List ExtractItem) : Prop :=
  ∀ it ∈ l, 0 ≤ it.confidence_score ∧ it.confidence_score ≤ 1

/-- Mapping the name-points projection over a conditional singleton block. -/
lemma map_pair_ite (c : Prop) [Decidable c] (f : RiskFactor) :
    (if c then [f] else []).map (fun g => (g.factor, g.points))
      = if c then [(f.factor, f.points)] else [] := by
  split <;> simp

/-- Membership in a conditional singleton block. -/
lemma pair_mem_ite {α : Type} {x y : α} {c : Prop} [Decidable c] :
    x ∈ (if c then [y] else []) ↔ c ∧ x = y := by
  split <;> simp_all

/-- The name-points pairs of an assessment's factor list, block by block. -/
lemma factor_pairs_assess (sa : Bool) (cl : String → Except Unit SentLabel)
    (sim : String → String → ℚ) (db : Option HistStore) (t : TaskData) (now : Int) :
    factor_pairs (assess_task_risk sa cl sim db t now) =
      (if assignee_missing t.assignee then [("No Assignee", 30)] else [])
      ++ (match t.deadline with
          | none => [("No Deadline", 25)]
          | some d => if d < now then [("Deadline Passed", 35)] else [])
      ++ (if 0 < sentiment_points sa cl t.task_description then
            [("Negative Sentiment Detected", sentiment_points sa cl t.task_description)]
          else [])
      ++ (if 0 < repetition_points sim db t.task_description t.task_id then
            [("Topic Repeated", repetition_points sim db t.task_description t.task_id)]
          else [])
      ++ (if 0 < historical_points db t.assignee then
            [("Assignee History of Delays", historical_points db t.assignee)]
          else []) := by
  simp only [factor_pairs, assess_task_risk, assignee_factors, deadline_factors,
    List.map_append, map_pair_ite]
  cases t.deadline <;> simp [map_pair_ite]

/-- A name occurs among the factor names iff it occurs with some points
among the name-points pairs. -/
lemma mem_factor_names_iff (r : RiskAssessment) (s : String) :
    s ∈ factor_names r ↔ ∃ p, (s, p) ∈ factor_pairs r := by
  constructor
  · intro hs
    obtain ⟨f, hf, rfl⟩ := List.mem_map.mp hs
    exact ⟨f.points, List.mem_map.mpr ⟨f, hf, rfl⟩⟩
  · rintro ⟨p, hp⟩
    obtain ⟨f, hf, he⟩ := List.mem_map.mp hp
    obtain ⟨h1, h2⟩ := Prod.mk.injEq .. ▸ he
    exact List.mem_map.mpr ⟨f, hf, h1⟩

/-- Case analysis of membership in the name-points pairs of an assessment. -/
lemma mem_factor_pairs_iff (sa : Bool) (cl : String → Except Unit SentLabel)
    (sim : String → String → ℚ) (db : Option HistStore) (t : TaskData) (now : Int)
    (x : String × Nat) :
    x ∈ factor_pairs (assess_task_risk sa cl sim db t now) ↔
      (assignee_missing t.assignee ∧ x = ("No Assignee", 30))
      ∨ (t.deadline = none ∧ x = ("No Deadline", 25))
      ∨ (∃ d, t.deadline = some d ∧ d < now ∧ x = ("Deadline Passed", 35))
      ∨ (0 < sentiment_points sa cl t.task_description
          ∧ x = ("Negative Sentiment Detected", sentiment_points sa cl t.task_description))
      ∨ (0 < repetition_points sim db t.task_description t.task_id
          ∧ x = ("Topic Repeated", repetition_points sim db t.task_description t.task_id))
      ∨ (0 < historical_points db t.assignee
          ∧ x = ("Assignee History of Delays", historical_points db t.assignee)) := by
  rw [factor_pairs_assess]
  cases t.deadline <;> simp [pair_mem_ite, List.mem_append]

/-- A sentiment-classification stub that always raises. -/
def classify_err : String → Except Unit SentLabel := fun _ => .error ()

/-- A similarity capability that reports zero similarity everywhere. -/
def sim_zero : String → String → ℚ := fun _ _ => 0

/-- A historical store whose every query raises. -/
def store_err : HistStore := ⟨fun _ => .error (), fun _ => .error ()⟩

/-- A historical store with no similar tasks and five overdue tasks per assignee. -/
def store_five : HistStore := ⟨fun _ => .ok [], fun _ => .ok 5⟩

/-- A historical store with no similar tasks and ninety-nine overdue tasks per assignee. -/
def store_many : HistStore := ⟨fun _ => .ok [], fun _ => .ok 99⟩

/-- A task with no assignee and no deadline. -/
def task_a : TaskData := ⟨some "t1", "Finish the report", none, none⟩

/-- A task assigned to Alice with deadline timestamp 10. -/
def task_b : TaskData := ⟨some "t1", "Finish the report", some "Alice", some 10⟩

/-- C1: for every task record and historical-store snapshot, the risk score
returned by `assess_task_risk` is an integer in [0,100] (it is a natural
number, so the lower bound is inherent), the risk level equals the fixed
threshold mapping of the score, and that mapping sends 30 to Low, 31 and 60
to Medium, 61 and 85 to High, and 86 to Critical. -/
theorem c1_score_bounds_and_level_thresholds (sentiment_available : Bool)
    (classify : String → Except Unit SentLabel) (sim : String → String → ℚ)
    (db_session : Option HistStore) (task_data : TaskData) (now : Int) :
    (assess_task_risk sentiment_available classify sim db_session task_data now).risk_score ≤ 100
    ∧ (assess_task_risk sentiment_available classify sim db_session task_data now).risk_level
        = get_risk_level
            (assess_task_risk sentiment_available classify sim db_session task_data now).risk_score
    ∧ get_risk_level 30 = "Low" ∧ get_risk_level 31 = "Medium"
    ∧ get_risk_level 60 = "Medium" ∧ get_risk_level 61 = "High"
    ∧ get_risk_level 85 = "High" ∧ get_risk_level 86 = "Critical" :=
  ⟨Nat.min_le_right _ _, rfl, rfl, rfl, rfl, rfl, rfl, rfl⟩

/-- C9: the returned risk score is the sum of the five breakdown values
clamped to [0,100] (so the breakdown sum is the pre-clamp total), and the
risk level is the threshold mapping applied to the clamped score. -/
theorem c9_breakdown_sum_clamp_level (sentiment_available : Bool)
    (classify : String → Except Unit SentLabel) (sim : String → String → ℚ)
    (db_session : Option HistStore) (task_data : TaskData) (now : Int) :
    (assess_task_risk sentiment_available classify sim db_session task_data now).risk_score
      = min (breakdown_sum
          (assess_task_risk sentiment_available classify sim db_session task_data now).total_risk_breakdown) 100
    ∧ (assess_task_risk sentiment_available classify sim db_session task_data now).risk_score ≤ 100
    ∧ (assess_task_risk sentiment_available classify sim db_session task_data now).risk_level
        = get_risk_level
            (assess_task_risk sentiment_available classify sim db_session task_data now).risk_score :=
  ⟨rfl, Nat.min_le_right _ _, rfl⟩

/-- C2: the "No Deadline" and "Deadline Passed" factors never co-occur; a
missing deadline yields "No Deadline" (+25) and never "Deadline Passed"; a
deadline strictly before the assessment time yields "Deadline Passed" (+35)
and never "No Deadline"; a deadline not yet passed yields neither. -/
theorem c2_deadline_factor_exclusivity (sentiment_available : Bool)
    (classify : String → Except Unit SentLabel) (sim : String → String → ℚ)
    (db_session : Option HistStore) (task_data : TaskData) (now : Int) :
    ¬ ("No Deadline" ∈ factor_names
          (assess_task_risk sentiment_available classify sim db_session task_data now)
        ∧ "Deadline Passed" ∈ factor_names
          (assess_task_risk sentiment_available classify sim db_session task_data now))
    ∧ (task_data.deadline = none →
        ("No Deadline", 25) ∈ factor_pairs
            (assess_task_risk sentiment_available classify sim db_session task_data now)
        ∧ "Deadline Passed" ∉ factor_names
            (assess_task_risk sentiment_available classify sim db_session task_data now))
    ∧ (∀ d, task_data.deadline = some d →
        "No Deadline" ∉ factor_names
            (assess_task_risk sentiment_available classify sim db_session task_data now)
        ∧ (d < now → ("Deadline Passed", 35) ∈ factor_pairs
            (assess_task_risk sentiment_available classify sim db_session task_data now))
        ∧ (¬ d < now → "Deadline Passed" ∉ factor_names
            (assess_task_risk sentiment_available classify sim db_session task_data now))) := by
  refine ⟨?_, ?_, ?_⟩
  · rintro ⟨h1, h2⟩
    rw [mem_factor_names_iff] at h1 h2
    obtain ⟨p, hp⟩ := h1
    obtain ⟨q, hq⟩ := h2
    rw [mem_factor_pairs_iff] at hp hq
    rcases hp with ⟨_, h⟩ | ⟨hdl, _⟩ | ⟨d, hdl, _, h⟩ | ⟨_, h⟩ | ⟨_, h⟩ | ⟨_, h⟩ <;>
      rcases hq with ⟨_, h2⟩ | ⟨hdl2, h2⟩ | ⟨d2, hdl2, _, h2⟩ | ⟨_, h2⟩ | ⟨_, h2⟩ | ⟨_, h2⟩ <;>
      simp_all
  · intro hdl
    constructor
    · rw [mem_factor_pairs_iff]
      exact Or.inr (Or.inl ⟨hdl, rfl⟩)
    · intro hmem
      rw [mem_factor_names_iff] at hmem
      obtain ⟨p, hp⟩ := hmem
      rw [mem_factor_pairs_iff] at hp
      rcases hp with ⟨_, h⟩ | ⟨_, h⟩ | ⟨d, hd, _, h⟩ | ⟨_, h⟩ | ⟨_, h⟩ | ⟨_, h⟩ <;> simp_all
  · intro d hdl
    refine ⟨?_, ?_, ?_⟩
    · intro hmem
      rw [mem_factor_names_iff] at hmem
      obtain ⟨p, hp⟩ := hmem
      rw [mem_factor_pairs_iff] at hp
      rcases hp with ⟨_, h⟩ | ⟨hd, h⟩ | ⟨d2, hd, _, h⟩ | ⟨_, h⟩ | ⟨_, h⟩ | ⟨_, h⟩ <;> simp_all
    · intro hlt
      rw [mem_factor_pairs_iff]
      exact Or.inr (Or.inr (Or.inl ⟨d, hdl, hlt, rfl⟩))
    · intro hge hmem
      rw [mem_factor_names_iff] at hmem
      obtain ⟨p, hp⟩ := hmem
      rw [mem_factor_pairs_iff] at hp
      rcases hp with ⟨_, h⟩ | ⟨hd, h⟩ | ⟨d2, hd, hlt, h⟩ | ⟨_, h⟩ | ⟨_, h⟩ | ⟨_, h⟩ <;>
        simp_all
      omega

/-- C2 witness: with no deadline, "No Deadline" (+25) fires on a concrete task. -/
theorem c2_witness :
    ("No Deadline", 25) ∈ factor_pairs
      (assess_task_risk false classify_err sim_zero none task_a 5) :=
  ((c2_deadline_factor_exclusivity false classify_err sim_zero none task_a 5).2.1 rfl).1

/-- C3: when the historical store raises on both queries, the repetition
and historical-delay categories contribute exactly 0 and neither factor
appears; the assessment is a total function, so no exception propagates. -/
theorem c3_store_failure_fail_open (sentiment_available : Bool)
    (classify : String → Except Unit SentLabel) (sim : String → String → ℚ)
    (store : HistStore) (task_data : TaskData) (now : Int)
    (h1 : store.listTasksExcept task_data.task_id = .error ())
    (h2 : ∀ a, store.countOverdue a = .error ()) :
    (assess_task_risk sentiment_available classify sim (some store) task_data now).total_risk_breakdown.repetition_risk = 0
    ∧ (assess_task_risk sentiment_available classify sim (some store) task_data now).total_risk_breakdown.historical_risk = 0
    ∧ "Topic Repeated" ∉ factor_names
        (assess_task_risk sentiment_available classify sim (some store) task_data now)
    ∧ "Assignee History of Delays" ∉ factor_names
        (assess_task_risk sentiment_available classify sim (some store) task_data now) := by
  have hr : repetition_points sim (some store) task_data.task_description task_data.task_id = 0 := by
    simp [repetition_points, check_repetition, h1]
  have hh : historical_points (some store) task_data.assignee = 0 := by
    simp [historical_points, check_historical_delays, h2]
  refine ⟨hr, hh, ?_, ?_⟩
  · intro hmem
    rw [mem_factor_names_iff] at hmem
    obtain ⟨p, hp⟩ := hmem
    rw [mem_factor_pairs_iff] at hp
    rcases hp with ⟨_, h⟩ | ⟨_, h⟩ | ⟨d, _, _, h⟩ | ⟨_, h⟩ | ⟨hpos, h⟩ | ⟨_, h⟩ <;> simp_all
  · intro hmem
    rw [mem_factor_names_iff] at hmem
    obtain ⟨p, hp⟩ := hmem
    rw [mem_factor_pairs_iff] at hp
    rcases hp with ⟨_, h⟩ | ⟨_, h⟩ | ⟨d, _, _, h⟩ | ⟨_, h⟩ | ⟨_, h⟩ | ⟨hpos, h⟩ <;> simp_all

/-- C3 witness: a concrete task assessed against a store whose queries all
raise has zero repetition and historical contributions. -/
theorem c3_witness :
    (assess_task_risk false classify_err sim_zero (some store_err) task_b 5).total_risk_breakdown.repetition_risk = 0
    ∧ (assess_task_risk false classify_err sim_zero (some store_err) task_b 5).total_risk_breakdown.historical_risk = 0
    ∧ "Topic Repeated" ∉ factor_names
        (assess_task_risk false classify_err sim_zero (some store_err) task_b 5)
    ∧ "Assignee History of Delays" ∉ factor_names
        (assess_task_risk false classify_err sim_zero (some store_err) task_b 5) :=
  c3_store_failure_fail_open false classify_err sim_zero store_err task_b 5 rfl (fun _ => rfl)

/-- C10: when the assignee is missing (None or empty), the historical-delay
category contributes 0, the factor is absent, and the assessment does not
depend on the store's overdue-count query at all (the query is never
issued): any store agreeing on the repetition query yields the identical
assessment. -/
theorem c10_missing_assignee_skips_history (sentiment_available : Bool)
    (classify : String → Except Unit SentLabel) (sim : String → String → ℚ)
    (store store2 : HistStore) (task_data : TaskData) (now : Int)
    (h : task_data.assignee = none ∨ task_data.assignee = some "")
    (h2 : store2.listTasksExcept = store.listTasksExcept) :
    (assess_task_risk sentiment_available classify sim (some store) task_data now).total_risk_breakdown.historical_risk = 0
    ∧ "Assignee History of Delays" ∉ factor_names
        (assess_task_risk sentiment_available classify sim (some store) task_data now)
    ∧ assess_task_risk sentiment_available classify sim (some store2) task_data now
        = assess_task_risk sentiment_available classify sim (some store) task_data now := by
  have ht : optStrTruthy task_data.assignee = false := by
    rcases h with h | h <;> simp [h, optStrTruthy]
  have hh : ∀ st : HistStore, historical_points (some st) task_data.assignee = 0 := by
    intro st
    simp [historical_points, ht]
  refine ⟨hh store, ?_, ?_⟩
  · intro hmem
    rw [mem_factor_names_iff] at hmem
    obtain ⟨p, hp⟩ := hmem
    rw [mem_factor_pairs_iff] at hp
    rcases hp with ⟨_, h⟩ | ⟨_, h⟩ | ⟨d, _, _, h⟩ | ⟨_, h⟩ | ⟨_, h⟩ | ⟨hpos, h⟩ <;>
      simp_all [hh store]
  · simp [assess_task_risk, repetition_points, check_repetition, h2, hh]

/-- C10 witness: for a concrete task with no assignee, two stores that agree
on the repetition query but report five versus ninety-nine overdue tasks
yield the identical assessment, with zero historical contribution. -/
theorem c10_witness :
    (assess_task_risk false classify_err sim_zero (some store_five) task_a 5).total_risk_breakdown.historical_risk = 0
    ∧ "Assignee History of Delays" ∉ factor_names
        (assess_task_risk false classify_err sim_zero (some store_five) task_a 5)
    ∧ assess_task_risk false classify_err sim_zero (some store_many) task_a 5
        = assess_task_risk false classify_err sim_zero (some store_five) task_a 5 :=
  c10_missing_assignee_skips_history false classify_err sim_zero store_five store_many task_a 5
    (Or.inl rfl) rfl

/-- C8 counterexample: the same task record and store snapshot assessed at
two different times produce different factor lists and different scores,
because the deadline comparison reads the ambient clock; so "identical
factor list and score regardless of when the two invocations occur" fails. -/
theorem c8_counterexample :
    (assess_task_risk false classify_err sim_zero none task_b 5).risk_factors
      ≠ (assess_task_risk false classify_err sim_zero none task_b 15).risk_factors
    ∧ (assess_task_risk false classify_err sim_zero none task_b 5).risk_score
      ≠ (assess_task_risk false classify_err sim_zero none task_b 15).risk_score := by
  decide

/-- C8 amended: identical task data and store snapshot yield an identical
factor list, score, breakdown and level across two invocations whenever the
two assessment times agree on whether the deadline has passed — the
assessment time enters the result only through that comparison. -/
theorem c8_determinism_amended (sentiment_available : Bool)
    (classify : String → Except Unit SentLabel) (sim : String → String → ℚ)
    (db_session : Option HistStore) (task_data : TaskData) (now1 now2 : Int)
    (h : deadline_passed task_data.deadline now1 = deadline_passed task_data.deadline now2) :
    (assess_task_risk sentiment_available classify sim db_session task_data now1).risk_factors
      = (assess_task_risk sentiment_available classify sim db_session task_data now2).risk_factors
    ∧ (assess_task_risk sentiment_available classify sim db_session task_data now1).risk_score
      = (assess_task_risk sentiment_available classify sim db_session task_data now2).risk_score
    ∧ (assess_task_risk sentiment_available classify sim db_session task_data now1).total_risk_breakdown
      = (assess_task_risk sentiment_available classify sim db_session task_data now2).total_risk_breakdown
    ∧ (assess_task_risk sentiment_available classify sim db_session task_data now1).risk_level
      = (assess_task_risk sentiment_available classify sim db_session task_data now2).risk_level := by
  have hcond : ∀ d, task_data.deadline = some d → ((d < now1) ↔ (d < now2)) := by
    intro d hd
    rw [hd] at h
    simpa [deadline_passed] using h
  have hp : deadline_points task_data.deadline now1 = deadline_points task_data.deadline now2 := by
    rcases hd : task_data.deadline with _ | d
    · rfl
    · simp [deadline_points, hcond d hd]
  have hf : deadline_factors task_data.deadline now1 = deadline_factors task_data.deadline now2 := by
    rcases hd : task_data.deadline with _ | d
    · rfl
    · simp [deadline_factors, hcond d hd]
  refine ⟨?_, ?_, ?_, ?_⟩ <;> simp [assess_task_risk, hp, hf]

/-- The scenario-C input sentence. -/
def c4_text : String := "We decided to migrate to the new vendor going forward."

/-- C4 counterexample: on the scenario-C input the rule-based decision
detector does not produce a candidate with text "to migrate to the new
vendor" — the pattern consumes the word "to" before the capture group and
the lazy capture runs to the final period. -/
theorem c4_counterexample :
    (detect_decisions_rules c4_text).map (fun i => i.text)
      ≠ ["to migrate to the new vendor"] := by
  decide

/-- C4 amended: on the scenario-C input the detector produces exactly one
decision candidate, whose text is "migrate to the new vendor going
forward". -/
theorem c4_single_decision_candidate :
    (detect_decisions_rules c4_text).map (fun i => i.text)
      = ["migrate to the new vendor going forward"] := by
  decide

/-- A concrete date-parsing capability: parses "tomorrow", nothing else. -/
def parse_tomorrow : String → Option String :=
  fun s => if s = "tomorrow" then some "2026-10-13T00:00:00" else none

/-- The C5 counterexample sentence: the first keyword "by" matches with an
unparseable capture, while the later keyword "due" matches with a parseable
one. -/
def c5_text : String := "Finish by xyzzy, due tomorrow"

/-- C5 counterexample: the first keyword in the fixed order, "by", occurs
and captures "xyzzy", which fails to parse; the claim then requires the
result to be none, but the extractor goes on to the later keyword "due" and
returns its parsed date. -/
theorem c5_counterexample :
    searchGroupAll (deadline_pattern "by") c5_text = some "xyzzy"
    ∧ parse_tomorrow "xyzzy" = none
    ∧ extract_deadline parse_tomorrow c5_text = some "2026-10-13T00:00:00" := by
  refine ⟨by decide, by decide, by decide⟩

/-- Keyword loop characterization: the extractor returns the first
successful parse over the keywords in table order. -/
lemma extract_deadline_go_eq (parse_date : String → Option String) (text : String) :
    ∀ kws : List String,
      extract_deadline_go parse_date text kws
        = (kws.filterMap (fun kw =>
            (searchGroupAll (deadline_pattern kw) text).bind
              (fun c => parse_date (pyStrip c)))).head?
  | [] => rfl
  | kw :: rest => by
    rw [extract_deadline_go, List.filterMap_cons]
    cases hs : searchGroupAll (deadline_pattern kw) text with
    | none => simp [hs, extract_deadline_go_eq parse_date text rest]
    | some c =>
      cases hp : parse_date (pyStrip c) with
      | none => simp [hs, hp, extract_deadline_go_eq parse_date text rest]
      | some d => simp [hs, hp]

/-- C5 amended: for every sentence and date-parsing capability, the
deadline normalizer tries the keywords in the fixed order and returns the
parse of the first keyword whose captured substring parses successfully;
it returns none only when no keyword yields a parseable capture — a failed
parse does not stop the scan. -/
theorem c5_first_successful_parse (parse_date : String → Option String) (text : String) :
    extract_deadline parse_date text
      = (DEADLINE_KEYWORDS.filterMap (fun kw =>
          (searchGroupAll (deadline_pattern kw) text).bind
            (fun c => parse_date (pyStrip c)))).head? :=
  extract_deadline_go_eq parse_date text DEADLINE_KEYWORDS

/-- Fallback confidence is at most 1 (it is clamped by `min`). -/
lemma calc_conf_le_one (item_type : ItemType) (item : ExtractItem) :
    calculate_confidence item_type item ≤ 1 := by
  unfold calculate_confidence
  exact min_le_right _ _

/-- Fallback confidence is nonnegative (base 0.6 plus nonnegative bonuses). -/
lemma calc_conf_nonneg (item_type : ItemType) (item : ExtractItem) :
    0 ≤ calculate_confidence item_type item := by
  unfold calculate_confidence
  refine le_min ?_ (by norm_num)
  cases item_type <;> dsimp only <;> split_ifs <;> norm_num

/-- Fallback confidence depends only on the candidate's text, assignee and
deadline, which per-item oracle processing never changes. -/
lemma calc_conf_process (r : OracleResult) (item_type : ItemType) (item : ExtractItem) :
    calculate_confidence item_type (process_item r item_type item)
      = calculate_confidence item_type item := by
  cases r <;> rfl

/-- The validation loop preserves the batch length on the no-raise path. -/
lemma validate_go_ok_length (oracle : Nat → OracleResult) (item_type : ItemType) :
    ∀ (items : List ExtractItem) (i : Nat) (out : List ExtractItem),
      validate_go oracle item_type i items = .ok out → out.length = items.length
  | [], _, out, h => by
    simp only [validate_go] at h
    cases h
    rfl
  | item :: rest, i, out, h => by
    rw [validate_go] at h
    cases ho : oracle i <;> rw [ho] at h
    case raises => cases h
    all_goals
      cases hrec : validate_go oracle item_type (i + 1) rest <;> rw [hrec] at h <;> cases h
    all_goals
      simp [validate_go_ok_length oracle item_type rest (i + 1) _ hrec]

/-- The validation loop preserves the batch length on the raise path. -/
lemma validate_go_error_length (oracle : Nat → OracleResult) (item_type : ItemType) :
    ∀ (items : List ExtractItem) (i : Nat) (out : List ExtractItem),
      validate_go oracle item_type i items = .error out → out.length = items.length
  | [], _, out, h => by
    simp only [validate_go] at h
    cases h
  | item :: rest, i, out, h => by
    rw [validate_go] at h
    cases ho : oracle i <;> rw [ho] at h
    case raises =>
      cases h
      rfl
    all_goals
      cases hrec : validate_go oracle item_type (i + 1) rest <;> rw [hrec] at h <;> cases h
    all_goals
      simp [validate_go_error_length oracle item_type rest (i + 1) _ hrec]

/-- When no call in range raises, the validation loop succeeds and computes
the per-item oracle resolution. -/
lemma validate_go_ok_of_noraise (oracle : Nat → OracleResult) (item_type : ItemType) :
    ∀ (items : List ExtractItem) (i : Nat),
      (∀ j, j < items.length → oracle (i + j) ≠ .raises) →
      validate_go oracle item_type i items = .ok (oracle_map oracle item_type i items)
  | [], _, _ => rfl
  | item :: rest, i, h => by
    have h0 : oracle i ≠ .raises := by
      have := h 0 (by simp)
      simpa using this
    have hrec := validate_go_ok_of_noraise oracle item_type rest (i + 1) (fun j hj => by
      have := h (j + 1) (by simpa using Nat.succ_lt_succ hj)
      rwa [show i + (j + 1) = i + 1 + j by omega] at this)
    rw [validate_go, oracle_map]
    cases ho : oracle i
    case raises => exact absurd ho h0
    all_goals rw [hrec]

/-- On the raise path, the surfaced list has the same fallback confidences
as the original batch, position by position. -/
lemma validate_go_error_confs (oracle : Nat → OracleResult) (item_type : ItemType) :
    ∀ (items : List ExtractItem) (i : Nat) (out : List ExtractItem),
      validate_go oracle item_type i items = .error out →
      out.map (fun it => calculate_confidence item_type it)
        = items.map (fun it => calculate_confidence item_type it)
  | [], _, out, h => by
    simp only [validate_go] at h
    cases h
  | item :: rest, i, out, h => by
    rw [validate_go] at h
    cases ho : oracle i <;> rw [ho] at h
    case raises =>
      cases h
      rfl
    all_goals
      cases hrec : validate_go oracle item_type (i + 1) rest <;> rw [hrec] at h <;> cases h
    all_goals
      simp [calc_conf_process,
        validate_go_error_confs oracle item_type rest (i + 1) _ hrec]

/-- If some call in range raises, the validation loop surfaces an error. -/
lemma validate_go_error_of_raise (oracle : Nat → OracleResult) (item_type : ItemType) :
    ∀ (items : List ExtractItem) (i : Nat),
      (∃ j, j < items.length ∧ oracle (i + j) = .raises) →
      ∃ out, validate_go oracle item_type i items = .error out
  | [], _, h => by
    obtain ⟨j, hj, _⟩ := h
    simp at hj
  | item :: rest, i, h => by
    rw [validate_go]
    cases ho : oracle i
    case raises => exact ⟨item :: rest, rfl⟩
    all_goals
      obtain ⟨j, hj, hr⟩ := h
      have hj0 : j ≠ 0 := by
        intro h0
        rw [h0, Nat.add_zero] at hr
        rw [hr] at ho
        cases ho
      obtain ⟨j2, rfl⟩ := Nat.exists_eq_succ_of_ne_zero hj0
      have hrec := validate_go_error_of_raise oracle item_type rest (i + 1)
        ⟨j2, by simpa using Nat.lt_of_succ_lt_succ hj,
          by rwa [show i + 1 + j2 = i + (j2 + 1) by omega]⟩
      obtain ⟨out2, hout⟩ := hrec
      rw [hout]
      exact ⟨_, rfl⟩

/-- Every confidence produced on the no-raise success path lies in the unit
interval, provided the oracle's own reported confidences do. -/
lemma validate_go_ok_bounds (oracle : Nat → OracleResult) (item_type : ItemType)
    (h : ∀ i c v, oracle i = .json (some c) v → 0 ≤ c ∧ c ≤ 1) :
    ∀ (items : List ExtractItem) (i : Nat) (out : List ExtractItem),
      validate_go oracle item_type i items = .ok out → confidences_in_unit out
  | [], _, out, hv => by
    simp only [validate_go] at hv
    cases hv
    intro it hit
    simp at hit
  | item :: rest, i, out, hv => by
    rw [validate_go] at hv
    cases ho : oracle i <;> rw [ho] at hv
    case raises => cases hv
    case failCode =>
      cases hrec : validate_go oracle item_type (i + 1) rest <;> rw [hrec] at hv
      case error => cases hv
      case ok rest2 =>
        cases hv
        intro it hit
        rcases List.mem_cons.mp hit with rfl | hmem
        · exact ⟨calc_conf_nonneg _ _, calc_conf_le_one _ _⟩
        · exact validate_go_ok_bounds oracle item_type h rest (i + 1) rest2 hrec it hmem
    case notJson =>
      cases hrec : validate_go oracle item_type (i + 1) rest <;> rw [hrec] at hv
      case error => cases hv
      case ok rest2 =>
        cases hv
        intro it hit
        rcases List.mem_cons.mp hit with rfl | hmem
        · exact ⟨calc_conf_nonneg _ _, calc_conf_le_one _ _⟩
        · exact validate_go_ok_bounds oracle item_type h rest (i + 1) rest2 hrec it hmem
    case json conf valid =>
      cases hrec : validate_go oracle item_type (i + 1) rest <;> rw [hrec] at hv
      case error => cases hv
      case ok rest2 =>
        cases hv
        intro it hit
        rcases List.mem_cons.mp hit with rfl | hmem
        · cases conf with
          | none =>
            constructor <;> simp [process_item] <;> norm_num
          | some c =>
            have := h i c valid ho
            simpa [process_item] using this
        · exact validate_go_ok_bounds oracle item_type h rest (i + 1) rest2 hrec it hmem

/-- A decision candidate with short text. -/
def item_d0 : ExtractItem := ⟨.decision, "ship it", none, none, "s", 0, 0, none⟩

/-- A second decision candidate with short text. -/
def item_d1 : ExtractItem := ⟨.decision, "go", none, none, "s", 0, 0, none⟩

/-- An oracle that answers every call with a well-formed JSON response whose
confidence is 5. -/
def oracle_c6 : Nat → OracleResult := fun _ => .json (some 5) none

/-- C6 counterexample: a parsed oracle response carrying confidence 5 is
stored verbatim, so the final confidence score of the candidate is 5, which
is not in [0,1]. -/
theorem c6_counterexample :
    (validate_with_llama oracle_c6 .decision [item_d0]).map (fun it => it.confidence_score) = [5]
    ∧ ¬ ((5 : ℚ) ≤ 1) := by
  refine ⟨by decide, by norm_num⟩

/-- C6 amended: the fallback-scored paths always produce confidences in
[0,1]; the oracle-validated path does so provided every confidence the
oracle reports is itself in [0,1] — the code stores the oracle's value
without clamping or validation. -/
theorem c6_confidence_unit_amended (oracle : Nat → OracleResult) (item_type : ItemType)
    (items : List ExtractItem)
    (h : ∀ i c v, oracle i = .json (some c) v → 0 ≤ c ∧ c ≤ 1) :
    confidences_in_unit (validate_with_llama oracle item_type items) := by
  unfold validate_with_llama
  cases hv : validate_go oracle item_type 0 items with
  | ok out => exact validate_go_ok_bounds oracle item_type h items 0 out hv
  | error out =>
    intro it hit
    obtain ⟨it0, _, rfl⟩ := List.mem_map.mp hit
    exact ⟨calc_conf_nonneg _ _, calc_conf_le_one _ _⟩

/-- An oracle that always reports confidence one half. -/
def oracle_half : Nat → OracleResult := fun _ => .json (some (1/2)) none

/-- C6 amended witness: with an oracle reporting confidence one half, the
validated batch's confidences lie in the unit interval. -/
theorem c6_witness :
    confidences_in_unit (validate_with_llama oracle_half .decision [item_d0]) :=
  c6_confidence_unit_amended oracle_half .decision [item_d0]
    (fun i c v hc => by
      have h1 : some ((1 : ℚ)/2) = some c := by
        have := hc
        injection this
      cases h1
      norm_num)

/-- An oracle whose first call succeeds with confidence 0.9 and whose
second call raises. -/
def oracle_c7 : Nat → OracleResult :=
  fun i => if i = 0 then .json (some (9/10)) (some true) else .raises

/-- An oracle whose every call returns a non-zero exit code. -/
def oracle_fail : Nat → OracleResult := fun _ => .failCode

/-- The fallback confidence of the first concrete decision item is 0.6. -/
lemma calc_conf_d0 : calculate_confidence .decision item_d0 = 6/10 := by
  show min (if item_d0.text.length > 15 then (6 : ℚ)/10 + 2/10 else 6/10) 1 = 6/10
  rw [if_neg (by decide)]
  exact min_eq_left (by norm_num)

/-- The fallback confidence of the second concrete decision item is 0.6. -/
lemma calc_conf_d1 : calculate_confidence .decision item_d1 = 6/10 := by
  show min (if item_d1.text.length > 15 then (6 : ℚ)/10 + 2/10 else 6/10) 1 = 6/10
  rw [if_neg (by decide)]
  exact min_eq_left (by norm_num)

/-- C7 counterexample: in a two-candidate batch whose first oracle call
succeeds with confidence 0.9 and whose second call raises, both candidates
end with the fallback confidence 0.6 — the already-succeeded candidate does
not keep its oracle-assigned confidence. -/
theorem c7_counterexample :
    oracle_c7 0 = .json (some (9/10)) (some true)
    ∧ oracle_c7 1 = .raises
    ∧ (validate_with_llama oracle_c7 .decision [item_d0, item_d1]).map
        (fun it => it.confidence_score) = [6/10, 6/10]
    ∧ (6 : ℚ)/10 ≠ 9/10 := by
  refine ⟨rfl, rfl, ?_, by norm_num⟩
  simp [validate_with_llama, validate_go, oracle_c7, set_fallback_confidence,
    calc_conf_process, calc_conf_d0, calc_conf_d1]

/-- C7 amended: the batch is never aborted (the output has the batch's
length); when no call raises, each candidate independently receives its
per-item resolution (oracle confidence on success, fallback on non-zero
exit or malformed output); but when any call raises, every candidate in the
batch receives the fallback heuristic confidence, overwriting earlier
oracle-assigned confidences. -/
theorem c7_batch_behavior_amended (oracle : Nat → OracleResult) (item_type : ItemType)
    (items : List ExtractItem) :
    (validate_with_llama oracle item_type items).length = items.length
    ∧ ((∀ i, i < items.length → oracle i ≠ .raises) →
        validate_with_llama oracle item_type items = oracle_map oracle item_type 0 items)
    ∧ ((∃ i, i < items.length ∧ oracle i = .raises) →
        (validate_with_llama oracle item_type items).map (fun it => it.confidence_score)
          = items.map (fun it => calculate_confidence item_type it)) := by
  refine ⟨?_, ?_, ?_⟩
  · unfold validate_with_llama
    cases hv : validate_go oracle item_type 0 items with
    | ok out => exact validate_go_ok_length oracle item_type items 0 out hv
    | error out =>
      rw [List.length_map]
      exact validate_go_error_length oracle item_type items 0 out hv
  · intro hnr
    unfold validate_with_llama
    rw [validate_go_ok_of_noraise oracle item_type items 0 (fun j hj => by
      simpa using hnr j hj)]
  · intro hr
    obtain ⟨i, hi, hri⟩ := hr
    obtain ⟨out, hout⟩ := validate_go_error_of_raise oracle item_type items 0
      ⟨i, hi, by simpa using hri⟩
    unfold validate_with_llama
    rw [hout, List.map_map]
    have : ((fun it : ExtractItem => it.confidence_score)
        ∘ set_fallback_confidence item_type)
        = fun it => calculate_confidence item_type it := rfl
    rw [this]
    exact validate_go_error_confs oracle item_type items 0 out hout

/-- C7 amended witness: with an all-failures oracle no call raises, so the
batch equals the per-item resolution; and with the raise-on-second oracle
the whole two-candidate batch gets fallback confidences. -/
theorem c7_witness :
    validate_with_llama oracle_fail .decision [item_d0]
      = oracle_map oracle_fail .decision 0 [item_d0]
    ∧ (validate_with_llama oracle_c7 .decision [item_d0, item_d1]).map
        (fun it => it.confidence_score)
      = [item_d0, item_d1].map (fun it => calculate_confidence .decision it) := by
  constructor
  · exact (c7_batch_behavior_amended oracle_fail .decision [item_d0]).2.1
      (fun i _ => by simp [oracle_fail])
  · exact (c7_batch_behavior_amended oracle_c7 .decision [item_d0, item_d1]).2.2
      ⟨1, by norm_num, rfl⟩

/-- C8 amended witness: a task without a deadline assessed at times 5 and 7
yields identical factors, score, breakdown and level. -/
theorem c8_witness :
    (assess_task_risk false classify_err sim_zero none task_a 5).risk_factors
      = (assess_task_risk false classify_err sim_zero none task_a 7).risk_factors
    ∧ (assess_task_risk false classify_err sim_zero none task_a 5).risk_score
      = (assess_task_risk false classify_err sim_zero none task_a 7).risk_score
    ∧ (assess_task_risk false classify_err sim_zero none task_a 5).total_risk_breakdown
      = (assess_task_risk false classify_err sim_zero none task_a 7).total_risk_breakdown
    ∧ (assess_task_risk false classify_err sim_zero none task_a 5).risk_level
      = (assess_task_risk false classify_err sim_zero none task_a 7).risk_level :=
  c8_determinism_amended false classify_err sim_zero none task_a 5 7 rfl

end Vox
